import Mathlib

/-!
Verification of the Context & Multi-Agent Orchestration Engine of the
multi-agent chat threading system.  The Python sources are shallowly
embedded: text is modelled as a list of characters, persistent storage and
the remote LLM gateway are modelled as explicit function parameters, and
fallible operations return Option or Except values.
-/

namespace MultiAgent

/-- Text is modelled as a list of characters (Python strings). -/
abbrev Text := List Char

/-- Whitespace characters recognised by the Python patterns and by the
string strip operations used in the sources (ASCII subset). -/
def isPySpace (c : Char) : Bool :=
  c == ' ' || c == '\t' || c == '\n' || c == '\r' || c == '\x0b' || c == '\x0c'

/-- Test whether pat occurs at the start of s. -/
def isPre (pat s : Text) : Bool :=
  match pat, s with
  | [], _ => true
  | _ :: _, [] => false
  | a :: as, b :: bs => a == b && isPre as bs

/-- Python substring containment, pat in s. -/
def containsSub (pat : Text) : Text → Bool
  | [] => pat.isEmpty
  | c :: rest => isPre pat (c :: rest) || containsSub pat rest

/-- Python str.strip with no argument: drop leading and trailing whitespace. -/
def pyStrip (s : Text) : Text :=
  ((s.dropWhile isPySpace).reverse.dropWhile isPySpace).reverse

/-- Structural worker for pyDelete; the fuel argument starts at the
length of the text, which bounds the recursion depth since every step
consumes at least one character. -/
def pyDeleteFuel (pat : Text) : Nat → Text → Text
  | _, [] => []
  | 0, s => s
  | Nat.succ f, c :: rest =>
    if pat ≠ [] ∧ isPre pat (c :: rest) then
      pyDeleteFuel pat f ((c :: rest).drop pat.length)
    else
      c :: pyDeleteFuel pat f rest

/-- Python str.replace with empty replacement: delete every non-overlapping
occurrence of pat, scanning left to right. -/
def pyDelete (pat : Text) (s : Text) : Text :=
  pyDeleteFuel pat s.length s

/-- Python per-character lowercasing (the keyword tables and queries are
ASCII or CJK, where charwise lowering agrees with str.lower). -/
def pyLower (s : Text) : Text := s.map Char.toLower

-- ===========================================================================
-- constants.py
-- ===========================================================================

/-- Per-message token overhead, constants.py line 79. -/
def MESSAGE_TOKEN_OVERHEAD : Nat := 4

/-- Base overhead for a conversation, constants.py line 82. -/
def CONVERSATION_TOKEN_OVERHEAD : Nat := 3

/-- Approximate characters per token for non-tiktoken models, constants.py line 85. -/
def CHARS_PER_TOKEN_ESTIMATE : Nat := 4

/-- Marker put in front of a summary when it enters the context,
constants.py line 72 (the source names it CONTEXT_SUMMARY_PREFIX). -/
def summaryMarker : Text := "[Previous conversation summary]: ".data

-- ===========================================================================
-- utils/token_counter.py
-- ===========================================================================

/-- A chat message as handled by the token counter: a dict with role and
content strings. -/
structure Msg where
  role : Text
  content : Text
deriving DecidableEq

/-- An exact sub-word tokenizer, as supplied by the external tiktoken
library for the OpenAI models (token_counter.py lines 28-54).  Modelled
abstractly by its token sequence; byte-pair encoding of the empty string
yields no tokens, which is the one property of the library the proofs use. -/
structure Encoder where
  encode : Text → List Nat
  encode_nil : encode [] = []

/-- The encoder lookup of a TokenCounter instance: model identifier to
optional exact tokenizer (token_counter.py _get_encoder). -/
abbrev EncoderMap := Text → Option Encoder

/-- TokenCounter.count_tokens, token_counter.py lines 56-74: exact count
via the tokenizer when one exists, otherwise floor division of the
character length by CHARS_PER_TOKEN_ESTIMATE. -/
def count_tokens (ge : EncoderMap) (text : Text) (model : Text) : Nat :=
  match ge model with
  | some enc => (enc.encode text).length
  | none => text.length / CHARS_PER_TOKEN_ESTIMATE

/-- TokenCounter.count_messages_tokens, token_counter.py lines 76-101:
sum of per-message counts plus a per-message overhead, plus a
conversation-level overhead. -/
def count_messages_tokens (ge : EncoderMap) (messages : List Msg) (model : Text) : Nat :=
  (messages.foldl
    (fun total msg => total + count_tokens ge msg.content model + MESSAGE_TOKEN_OVERHEAD)
    0) + CONVERSATION_TOKEN_OVERHEAD

/-- The cost a single history message contributes inside
trim_context_to_fit (token_counter.py line 161). -/
def msgCost (ge : EncoderMap) (model : Text) (msg : Msg) : Nat :=
  count_tokens ge msg.content model + MESSAGE_TOKEN_OVERHEAD

/-- Sum of per-message costs of a list (content estimate plus per-message
overhead for each entry). -/
def msgCostSum (ge : EncoderMap) (model : Text) (l : List Msg) : Nat :=
  (l.map (msgCost ge model)).sum

/-- The partition predicate of trim_context_to_fit (token_counter.py lines
132-146): a message is preserved when it is a system message (and
preserve_system), or an assistant message whose content starts with a
summary marker (and preserve_summary). -/
def isPreserved (preserve_system preserve_summary : Bool) (msg : Msg) : Bool :=
  (preserve_system && msg.role == "system".data) ||
  (preserve_summary && msg.role == "assistant".data &&
    (isPre "[Summary]".data msg.content || isPre summaryMarker msg.content))

/-- The greedy admission loop of trim_context_to_fit (token_counter.py
lines 159-166), applied to the history in newest-first order.  The source
inserts each admitted message at position 0, so the returned list is in
original chronological order.  The Python guard remaining - msg_tokens >= 0
over integers is written as msg_tokens <= remaining. -/
def trimHistoryRev (ge : EncoderMap) (model : Text) (remaining : Nat) : List Msg → List Msg
  | [] => []
  | msg :: rest =>
    if msgCost ge model msg ≤ remaining then
      trimHistoryRev ge model (remaining - msgCost ge model msg) rest ++ [msg]
    else []

/-- TokenCounter.trim_context_to_fit, token_counter.py lines 103-169. -/
def trim_context_to_fit (ge : EncoderMap) (messages : List Msg) (model : Text)
    (max_tokens : Nat) (preserve_system preserve_summary : Bool) : List Msg :=
  if messages.isEmpty then messages
  else
    let preserved := messages.filter (isPreserved preserve_system preserve_summary)
    let history := messages.filter (fun m => !isPreserved preserve_system preserve_summary m)
    let preserved_tokens := count_messages_tokens ge preserved model
    if max_tokens ≤ preserved_tokens then preserved
    else
      let remaining_tokens := max_tokens - preserved_tokens
      preserved ++ trimHistoryRev ge model remaining_tokens history.reverse

-- ===========================================================================
-- models/registry.py
-- ===========================================================================

/-- The keys of MODEL_REGISTRY, registry.py lines 11-33. -/
def MODEL_REGISTRY_KEYS : List Text :=
  ["openai/gpt-4-turbo".data, "anthropic/claude-3.5-sonnet".data, "openai/gpt-3.5-turbo".data]

/-- validate_model, registry.py lines 36-46: registry membership. -/
def validate_model (model_identifier : Text) : Bool :=
  MODEL_REGISTRY_KEYS.contains model_identifier

-- ===========================================================================
-- services/llm_orchestrator.py
-- ===========================================================================

/-- The failure classes of LLMOrchestrator._determine_effective_model
(raised as ValueError in the source, lines 118-134). -/
inductive ModelError where
  | invalidRequested (model : Text)
  | invalidThread (model : Text)
deriving DecidableEq

/-- LLMOrchestrator._determine_effective_model, llm_orchestrator.py lines
94-134.  The Python guard if requested_model: is false both for None and
for the empty string, so an empty requested model falls through to the
thread model. -/
def determine_effective_model (thread_current_model : Text)
    (requested_model : Option Text) : Except ModelError Text :=
  match requested_model with
  | some rm =>
    if rm ≠ [] then
      if validate_model rm then Except.ok rm
      else Except.error (ModelError.invalidRequested rm)
    else
      if validate_model thread_current_model then Except.ok thread_current_model
      else Except.error (ModelError.invalidThread thread_current_model)
  | none =>
    if validate_model thread_current_model then Except.ok thread_current_model
    else Except.error (ModelError.invalidThread thread_current_model)

-- ===========================================================================
-- UUID parsing (the uuid.UUID constructor of the Python standard library,
-- called with a hex string by the services; ValueError is modelled as none)
-- ===========================================================================

/-- Hexadecimal digit test for int(s, 16). -/
def isHexDigit (c : Char) : Bool :=
  ('0' ≤ c && c ≤ '9') || ('a' ≤ c && c ≤ 'f') || ('A' ≤ c && c ≤ 'F')

/-- Value of a hexadecimal digit. -/
def hexVal (c : Char) : Nat :=
  if '0' ≤ c && c ≤ '9' then c.toNat - '0'.toNat
  else if 'a' ≤ c && c ≤ 'f' then c.toNat - 'a'.toNat + 10
  else c.toNat - 'A'.toNat + 10

/-- Continuation of the digit run of int(s, 16): further digits, with
single underscores allowed between digits. -/
def parseHexLoop (acc : Nat) : Text → Option Nat
  | [] => some acc
  | '_' :: c :: rest =>
    if isHexDigit c then parseHexLoop (acc * 16 + hexVal c) rest else none
  | ['_'] => none
  | c :: rest =>
    if isHexDigit c then parseHexLoop (acc * 16 + hexVal c) rest else none

/-- The digit run of int(s, 16): at least one hexadecimal digit, with
single underscores allowed between digits. -/
def parseHexRun : Text → Option Nat
  | [] => none
  | c :: rest => if isHexDigit c then parseHexLoop (hexVal c) rest else none

/-- Body of int(s, 16) after sign handling: an optional 0x or 0X marker
(optionally followed by one underscore) and then the digit run. -/
def pyInt16Core : Text → Option Nat
  | '0' :: x :: rest =>
    if x == 'x' || x == 'X' then
      match rest with
      | '_' :: r2 => parseHexRun r2
      | r2 => parseHexRun r2
    else parseHexRun ('0' :: x :: rest)
  | r => parseHexRun r

/-- Python int(s, 16): surrounding whitespace and an optional sign are
accepted; a leading minus cannot yield a value in range for a UUID, so it
is rejected directly. -/
def pyInt16 (s : Text) : Option Nat :=
  let t := ((s.dropWhile isPySpace).reverse.dropWhile isPySpace).reverse
  match t with
  | '-' :: _ => none
  | '+' :: r => pyInt16Core r
  | r => pyInt16Core r

/-- The uuid.UUID constructor applied to a hex string, as used for thread
identifiers: delete urn: and uuid: occurrences, strip surrounding braces,
delete dashes, require exactly 32 remaining characters, and parse them as
a base-16 integer below 2 to the 128th power.  A ValueError is none. -/
def pyUUIDParse (s : Text) : Option Nat :=
  let h1 := pyDelete "urn:".data s
  let h2 := pyDelete "uuid:".data h1
  let h3 := ((h2.dropWhile (fun c => c == '\x7b' || c == '\x7d')).reverse.dropWhile
      (fun c => c == '\x7b' || c == '\x7d')).reverse
  let h4 := pyDelete "-".data h3
  if h4.length ≠ 32 then none
  else
    match pyInt16 h4 with
    | none => none
    | some n => if n < 2 ^ 128 then some n else none

-- ===========================================================================
-- services/summarization_engine.py
-- ===========================================================================

/-- A stored message row as read by the summarization engine. -/
structure SMsg where
  message_id : Nat
  role : Text
  content : Text
deriving DecidableEq

/-- A summary record as persisted by generate_summary. -/
structure SummaryRec where
  summary_text : Text
  covered_message_count : Nat
  covered_message_ids : List Nat
  trigger_reason : Text
deriving DecidableEq

/-- SummarizationEngine.should_trigger, summarization_engine.py lines
43-74.  The stored message counts are modelled as a partial map from
parsed thread id to message_count; a malformed thread id (ValueError from
the UUID constructor) returns false, a missing row (scalar_one_or_none
giving None) is falsy, and the Python guard count and count > 0 and
count % threshold == 0 decides the rest. -/
def should_trigger (db : Nat → Option Nat) (threshold : Nat) (thread_id : Text) : Bool :=
  match pyUUIDParse thread_id with
  | none => false
  | some uuid_id =>
    match db uuid_id with
    | none => false
    | some count => (count != 0) && decide (0 < count) && (count % threshold == 0)

/-- SummarizationEngine._format_messages_for_summary, summarization_engine.py
lines 245-262: label each message User or Assistant, truncate contents
beyond 500 characters, join with newlines. -/
def format_messages_for_summary (messages : List SMsg) : Text :=
  ((messages.map (fun msg =>
      let roleLabel := if msg.role == "user".data then "User".data else "Assistant".data
      let content :=
        if 500 < msg.content.length then msg.content.take 500 ++ "...".data
        else msg.content
      roleLabel ++ ": ".data ++ content)).intersperse "\n".data).flatten

/-- Text of SUMMARIZATION_PROMPT_TEMPLATE before the conversation slot
(constants.py lines 14-26). -/
def summarizationTemplateBefore : Text :=
  ("Summarize the following conversation segment concisely.\nFocus on:\n- Key topics discussed\n- Important decisions or conclusions made\n- User\x27s main intent and questions\n- Any action items or follow-ups mentioned\n\nKeep the summary under 150 words and maintain the essential context.\n\nConversation:\n").data

/-- Text of SUMMARIZATION_PROMPT_TEMPLATE after the conversation slot. -/
def summarizationTemplateAfter : Text := "\n\nSummary:".data

/-- SummarizationEngine.generate_summary, summarization_engine.py lines
76-166.  Storage is modelled by msgsDesc, the stored messages of each
parsed thread id in descending created_at order; the summarization LLM
call is modelled by adapter, with none standing for a raised exception
(caught at lines 125-131).  The function returns the summary record that
is persisted, or none on a malformed id, an empty thread, or a failed
LLM call. -/
def generate_summary (msgsDesc : Nat → List SMsg) (adapter : Text → Option Text)
    (threshold : Nat) (thread_id : Text) : Option SummaryRec :=
  match pyUUIDParse thread_id with
  | none => none
  | some uuid_id =>
    let messages := ((msgsDesc uuid_id).take threshold).reverse
    if messages.isEmpty then none
    else
      let conversation_text := format_messages_for_summary messages
      let prompt := summarizationTemplateBefore ++ conversation_text ++ summarizationTemplateAfter
      match adapter prompt with
      | none => none
      | some content =>
        some { summary_text := pyStrip content
               covered_message_count := messages.length
               covered_message_ids := messages.map SMsg.message_id
               trigger_reason := "message_count".data }

-- ===========================================================================
-- services/agent_collaboration.py : complexity classification
-- ===========================================================================

/-- Keyword set denoting analytical intent, agent_collaboration.py lines
36-40. -/
def ANALYSIS_KEYWORDS : List Text :=
  ["分析".data, "比较".data, "对比".data, "评估".data, "策略".data, "方案".data,
   "建议".data, "优劣".data, "analyze".data, "compare".data, "evaluate".data,
   "strategy".data, "recommend".data, "pros and cons".data, "trade-offs".data,
   "considerations".data, "decision".data, "architecture".data, "design".data]

/-- Keyword set denoting explanatory depth, agent_collaboration.py lines
41-44. -/
def COMPLEXITY_KEYWORDS : List Text :=
  ["如何".data, "为什么".data, "解释".data, "详细".data, "深入".data, "全面".data,
   "how".data, "why".data, "explain".data, "detailed".data, "comprehensive".data,
   "in-depth".data]

/-- Number of non-overlapping matches of the multi-question pattern (a
digit 1-9 followed by a dot, closing parenthesis or ideographic comma; or
a bullet; or a dash), as counted by re.findall scanning left to right and
trying the alternatives in order. -/
def countMultiQ : Text → Nat
  | [] => 0
  | [c] => if c == '•' || c == '-' then 1 else 0
  | c :: d :: rest =>
    if ('1' ≤ c && c ≤ '9') && (d == '.' || d == ')' || d == '、') then
      1 + countMultiQ rest
    else if c == '•' || c == '-' then 1 + countMultiQ (d :: rest)
    else countMultiQ (d :: rest)

/-- The complexity score record returned by classify_complexity. -/
structure Complexity where
  score : Nat
  is_complex : Bool
  reasons : List Text
  recommendation : Text
deriving DecidableEq

/-- AgentCollaborationService.classify_complexity, agent_collaboration.py
lines 166-226: a pure score over query and optional context. -/
def classify_complexity (query : Text) (context : Option Text) : Complexity :=
  let full_text := query ++ (match context with | some c => c | none => [])
  let full_text_lower := pyLower full_text
  let s1 : Nat := 0
  let r1 : List Text := []
  let sr2 := if 100 ≤ query.length then (s1 + 2, r1 ++ ["query_length".data]) else (s1, r1)
  let n := countMultiQ query
  let sr3 :=
    if 2 ≤ n then
      (sr2.1 + 3, sr2.2 ++ [("multi_questions(".data ++ (Nat.repr n).data ++ ")".data)])
    else sr2
  let found_analysis := ANALYSIS_KEYWORDS.filter (fun kw => containsSub kw full_text_lower)
  let sr4 :=
    if found_analysis.length ≠ 0 then
      (sr3.1 + 2, sr3.2 ++
        [("analysis_keywords(".data ++ (Nat.repr found_analysis.length).data ++ ")".data)])
    else sr3
  let found_complexity := COMPLEXITY_KEYWORDS.filter (fun kw => containsSub kw full_text_lower)
  let sr5 :=
    if found_complexity.length ≠ 0 then
      (sr4.1 + 1, sr4.2 ++
        [("complexity_keywords(".data ++ (Nat.repr found_complexity.length).data ++ ")".data)])
    else sr4
  let sr6 :=
    match context with
    | some c => if c ≠ [] ∧ 50 < c.length then (sr5.1 + 1, sr5.2 ++ ["has_context".data]) else sr5
    | none => sr5
  let is_complex := 4 ≤ sr6.1
  { score := sr6.1
    is_complex := is_complex
    reasons := sr6.2
    recommendation := if is_complex then "full_pipeline".data else "skip_reviewer".data }

-- ===========================================================================
-- services/agent_collaboration.py : extract_key_sections
-- ===========================================================================

/-- CJK numerals of the header pattern. -/
def cjkNumeral (c : Char) : Bool :=
  c == '一' || c == '二' || c == '三' || c == '四' || c == '五' ||
  c == '六' || c == '七' || c == '八' || c == '九' || c == '十'

/-- Continuation of a character-class run: skip further class characters
and test the first character after the run against the terminator set
(used for patterns of the shape class+ terminator where the two sets are
disjoint, so greedy matching is exact). -/
def runThenAux (classFn endSet : Char → Bool) : Text → Bool
  | [] => false
  | c :: rest => if classFn c then runThenAux classFn endSet rest else endSet c

/-- Match class+ terminator at the start of the text. -/
def runThen (classFn endSet : Char → Bool) (s : Text) : Bool :=
  match s with
  | [] => false
  | c :: rest => classFn c && runThenAux classFn endSet rest

/-- One to three hash characters followed by whitespace, the first header
alternative. -/
def hashHeader : Text → Bool
  | '#' :: c1 :: rest2 =>
    if isPySpace c1 then true
    else if c1 == '#' then
      match rest2 with
      | c2 :: rest3 =>
        if isPySpace c2 then true
        else if c2 == '#' then
          match rest3 with
          | c3 :: _ => isPySpace c3
          | [] => false
        else false
      | [] => false
    else false
  | _ => false

/-- An uppercase letter, a dot and whitespace, the fourth header
alternative. -/
def upperDotAlt : Text → Bool
  | c :: '.' :: d :: _ => ('A' ≤ c && c ≤ 'Z') && isPySpace d
  | _ => false

/-- Scan for two consecutive asterisks directly after a run of
non-asterisk characters (tail of the bold-emphasis alternative). -/
def boldScan : Text → Bool
  | '*' :: '*' :: _ => true
  | '*' :: _ => false
  | _ :: rest => boldScan rest
  | [] => false

/-- Two asterisks, one or more non-asterisk characters, two asterisks:
the bold-emphasis header alternative. -/
def boldAlt : Text → Bool
  | '*' :: '*' :: c :: rest => !(c == '*') && boldScan rest
  | _ => false

/-- The header pattern of extract_key_sections (agent_collaboration.py
line 250), anchored at the start of the stripped line. -/
def headerMatch (s : Text) : Bool :=
  hashHeader s ||
  runThen cjkNumeral (fun c => c == '、' || c == '.') s ||
  runThen (fun c => '1' ≤ c && c ≤ '9') (fun c => c == '.' || c == ')' || c == '、') s ||
  upperDotAlt s ||
  boldAlt s

/-- Digit-run continuation of the numbered-point alternative: further
digits 1-9, then a dot or closing parenthesis, then whitespace. -/
def digitPointAux : Text → Bool
  | [] => false
  | c :: rest =>
    if '1' ≤ c && c ≤ '9' then digitPointAux rest
    else if c == '.' || c == ')' then
      match rest with
      | d :: _ => isPySpace d
      | [] => false
    else false

/-- The key-point pattern of extract_key_sections (agent_collaboration.py
line 253): optional leading whitespace, then either a dash or bullet
followed by whitespace, or a run of digits 1-9 followed by a dot or
closing parenthesis and whitespace. -/
def pointMatch (s : Text) : Bool :=
  let t := s.dropWhile isPySpace
  (match t with
   | c :: d :: _ => (c == '-' || c == '•') && isPySpace d
   | _ => false) ||
  (match t with
   | c :: rest => ('1' ≤ c && c ≤ '9') && digitPointAux rest
   | [] => false)

/-- Python draft.split with a newline separator (empty pieces kept). -/
def splitNL : Text → List Text
  | [] => [[]]
  | c :: rest =>
    let r := splitNL rest
    if c == '\n' then [] :: r
    else
      match r with
      | [] => [[c]]
      | h :: t => (c :: h) :: t

/-- Python newline join. -/
def joinNL (parts : List Text) : Text := (parts.intersperse "\n".data).flatten

/-- Representative-sentence truncation of extract_key_sections line 273. -/
def truncate150 (s : Text) : Text :=
  if 150 < s.length then s.take 150 ++ "...".data else s

/-- The line loop of extract_key_sections (agent_collaboration.py lines
257-274).  The boolean argument tracks whether current_section_content is
empty. -/
def extractLoop : List Text → Bool → List Text
  | [], _ => []
  | line :: rest, curEmpty =>
    let stripped := pyStrip line
    if stripped.isEmpty then extractLoop rest curEmpty
    else if headerMatch stripped then stripped :: extractLoop rest true
    else if pointMatch stripped then stripped :: extractLoop rest curEmpty
    else if curEmpty && decide (20 < stripped.length) then
      truncate150 stripped :: extractLoop rest false
    else extractLoop rest curEmpty

/-- Python slice s[-n:], which is the whole string when n is zero. -/
def pyTakeLast (n : Nat) (s : Text) : Text :=
  if n == 0 then s else (s.reverse.take n).reverse

/-- AgentCollaborationService.extract_key_sections, agent_collaboration.py
lines 228-288. -/
def extract_key_sections (draft : Text) (max_chars : Nat) : Text :=
  let lines := splitNL draft
  let key_parts := extractLoop lines true
  let summary := joinNL key_parts
  let summary :=
    if max_chars < summary.length then
      let half := max_chars / 2
      summary.take half ++ "\n...[中间内容省略]...\n".data ++ pyTakeLast half summary
    else summary
  if summary.length < 100 ∧ 0 < draft.length then
    if max_chars < draft.length then draft.take max_chars ++ "...".data else draft
  else summary

-- ===========================================================================
-- services/agent_collaboration.py : agents and the collaborate pipeline
-- ===========================================================================

/-- Agent roles, agent_collaboration.py lines 48-52. -/
inductive AgentRole where
  | planner
  | writer
  | reviewer
deriving DecidableEq

/-- Configuration of one agent role, agent_collaboration.py lines 55-61. -/
structure AgentConfig where
  role : AgentRole
  model : Text
  system_prompt : Text
  description : Text
deriving DecidableEq

/-- The in-memory role-to-configuration map self.agents. -/
abbrev AgentMap := AgentRole → AgentConfig

/-- DEFAULT_AGENTS, agent_collaboration.py lines 65-111. -/
def DEFAULT_AGENTS : AgentMap
  | AgentRole.planner =>
    { role := AgentRole.planner
      model := "openai/gpt-4-turbo".data
      system_prompt := ("You are a strategic PLANNER agent. Your role is to:\n1. Analyze the user\x27s question or request carefully\n2. Identify key points that need to be addressed\n3. Create a clear, structured outline for the response\n4. Consider different perspectives and approaches\n\nOutput a concise plan (3-5 bullet points) that will guide the Writer agent.\nFocus on WHAT should be covered, not the actual content.\nBe specific and actionable in your planning.").data
      description := "Analyzes questions and creates response strategies".data }
  | AgentRole.writer =>
    { role := AgentRole.writer
      model := "anthropic/claude-3.5-sonnet".data
      system_prompt := ("You are a skilled WRITER agent. Your role is to:\n1. Follow the plan provided by the Planner agent\n2. Generate detailed, well-structured content\n3. Ensure clarity and coherence in your writing\n4. Cover all points in the plan thoroughly\n\nYou will receive the original question AND the Planner\x27s outline.\nWrite comprehensive content that addresses each planned point.\nBe informative, accurate, and engaging.").data
      description := "Generates detailed content based on the plan".data }
  | AgentRole.reviewer =>
    { role := AgentRole.reviewer
      model := "openai/gpt-4-turbo".data
      system_prompt := ("You are a critical REVIEWER agent. Your role is to:\n1. Review the key sections and summary of the Writer\x27s content\n2. Check if the plan points are properly addressed\n3. Identify any gaps, errors, or areas for improvement\n4. Provide a refined, polished final response\n\nYou will see: Original question → Plan → Key sections/Summary of draft\nThis is an optimized review - you only see critical parts to review efficiently.\nOutput the FINAL polished response, incorporating necessary improvements.\nKeep improvements subtle - only fix real issues, don\x27t over-edit.").data
      description := "Reviews and polishes the final output".data }

/-- One chat-completion request issued to the gateway adapter.  The
per-stage temperature constants are floating-point literals in the source
and are not modelled. -/
structure GatewayCall where
  model : Text
  messages : List Msg
  max_tokens : Nat
deriving DecidableEq

/-- The gateway reply fields the pipeline consumes. -/
structure GatewayResponse where
  content : Text
  tokens : Nat
deriving DecidableEq

/-- The gateway adapter as seen by the pipeline: a deterministic oracle
from requests to replies (chat_completion). -/
abbrev Adapter := GatewayCall → GatewayResponse

/-- The context prefix of collaborate (agent_collaboration.py line 335);
an empty context string is falsy in Python and yields no prefix. -/
def context_prefix_of (context : Option Text) : Text :=
  match context with
  | some c => if c ≠ [] then "Context: ".data ++ c ++ "\n\n".data else []
  | none => []

/-- The planner user prompt, agent_collaboration.py lines 342-344. -/
def planner_prompt_of (query : Text) (context : Option Text) : Text :=
  context_prefix_of context ++ "User Question: ".data ++ query ++
    "\n\nCreate a clear plan for answering this question. Output 3-5 bullet points.".data

/-- The planner stage request, agent_collaboration.py lines 348-356. -/
def plannerCallOf (agents : AgentMap) (query : Text) (context : Option Text) : GatewayCall :=
  { model := (agents AgentRole.planner).model
    messages := [⟨"system".data, (agents AgentRole.planner).system_prompt⟩,
                 ⟨"user".data, planner_prompt_of query context⟩]
    max_tokens := 500 }

/-- The planner stage output (plan). -/
def planOf (agents : AgentMap) (adapter : Adapter) (query : Text)
    (context : Option Text) : Text :=
  (adapter (plannerCallOf agents query context)).content

/-- The writer user prompt, agent_collaboration.py lines 388-393. -/
def writer_prompt_of (agents : AgentMap) (adapter : Adapter) (query : Text)
    (context : Option Text) : Text :=
  context_prefix_of context ++ "User Question: ".data ++ query ++
    "\n\n=== PLANNER\x27S OUTLINE ===\n".data ++ planOf agents adapter query context ++
    "\n\nBased on this plan, write a comprehensive response addressing each point.".data

/-- The writer stage request, agent_collaboration.py lines 397-405. -/
def writerCallOf (agents : AgentMap) (adapter : Adapter) (query : Text)
    (context : Option Text) : GatewayCall :=
  { model := (agents AgentRole.writer).model
    messages := [⟨"system".data, (agents AgentRole.writer).system_prompt⟩,
                 ⟨"user".data, writer_prompt_of agents adapter query context⟩]
    max_tokens := 1500 }

/-- The writer stage output (draft). -/
def draftOf (agents : AgentMap) (adapter : Adapter) (query : Text)
    (context : Option Text) : Text :=
  (adapter (writerCallOf agents adapter query context)).content

/-- The reviewer user prompt, agent_collaboration.py lines 441-462: it
embeds the key sections of the draft, never the full draft. -/
def reviewer_prompt_of (agents : AgentMap) (adapter : Adapter) (query : Text)
    (context : Option Text) : Text :=
  let draft := draftOf agents adapter query context
  let draft_summary := extract_key_sections draft 800
  context_prefix_of context ++ "User Question: ".data ++ query ++
    "\n\n=== PLANNER\x27S OUTLINE ===\n".data ++ planOf agents adapter query context ++
    "\n\n=== KEY SECTIONS OF WRITER\x27S DRAFT ===\n".data ++ draft_summary ++
    "\n\n[Note: This is an optimized review with key sections only. Full draft length: ".data ++
    (Nat.repr draft.length).data ++
    " chars]\n\nBased on these key sections, review and provide the final, polished response.\nEnsure all plan points are addressed. Fix any issues but keep changes minimal.".data

/-- The reviewer stage request, agent_collaboration.py lines 466-474. -/
def reviewerCallOf (agents : AgentMap) (adapter : Adapter) (query : Text)
    (context : Option Text) : GatewayCall :=
  { model := (agents AgentRole.reviewer).model
    messages := [⟨"system".data, (agents AgentRole.reviewer).system_prompt⟩,
                 ⟨"user".data, reviewer_prompt_of agents adapter query context⟩]
    max_tokens := 1500 }

/-- The observable outcome of one collaboration: the final response, the
intermediate plan and draft (collaboration_process), the gateway requests
in issue order, the aggregated token count, and the complexity record.
Wall-clock metadata and the optional usage tracker are not modelled. -/
structure CollabResult where
  final_response : Text
  plan : Text
  draft : Text
  calls : List GatewayCall
  total_tokens : Nat
  reviewer_used : Bool
  complexity : Complexity
deriving DecidableEq

/-- AgentCollaborationService.collaborate, agent_collaboration.py lines
290-611: planner stage, writer stage, and a reviewer stage that runs only
when the query is complex or force_full_pipeline is set; without the
reviewer the writer draft is the final response. -/
def collaborate (agents : AgentMap) (adapter : Adapter) (query : Text)
    (context : Option Text) (force_full_pipeline : Bool) : CollabResult :=
  let complexity := classify_complexity query context
  let use_reviewer := complexity.is_complex || force_full_pipeline
  let pCall := plannerCallOf agents query context
  let plan := (adapter pCall).content
  let wCall := writerCallOf agents adapter query context
  let draft := (adapter wCall).content
  if use_reviewer then
    let rCall := reviewerCallOf agents adapter query context
    { final_response := (adapter rCall).content
      plan := plan
      draft := draft
      calls := [pCall, wCall, rCall]
      total_tokens := (adapter pCall).tokens + (adapter wCall).tokens + (adapter rCall).tokens
      reviewer_used := true
      complexity := complexity }
  else
    { final_response := draft
      plan := plan
      draft := draft
      calls := [pCall, wCall]
      total_tokens := (adapter pCall).tokens + (adapter wCall).tokens
      reviewer_used := false
      complexity := complexity }

-- ===========================================================================
-- adapters/openrouter.py : error taxonomy and retry policy
-- ===========================================================================

/-- The raw outcome of one underlying HTTP request attempt (the body of
_chat_completion_with_retry, openrouter.py lines 129-203): a parsed
success, a transport-level timeout, an HTTP error status with its
retry-after header and error detail, or another network error. -/
inductive RawOutcome where
  | success (content : Text) (tokens : Nat)
  | timeout
  | httpStatus (code : Nat) (retryAfter : Option Text) (detail : Text)
  | networkError (detail : Text)
deriving DecidableEq

/-- The failure classes surfaced by the adapter (openrouter.py lines
29-43 and 161-203). -/
inductive GatewayError where
  | timeout
  | rateLimited (retry_after : Text)
  | authFailed
  | badRequest (detail : Text)
  | upstream (code : Nat) (detail : Text)
  | network (detail : Text)
deriving DecidableEq

/-- The reply fields chat_completion returns on success. -/
structure GatewayReply where
  content : Text
  tokens : Nat
deriving DecidableEq

/-- Classification of one raw attempt outcome by the except clauses of
_chat_completion_with_retry (openrouter.py lines 161-203): a timeout is
re-raised as a timeout, 429 carries the retry-after header value (the
string unknown when the header is absent), 401 is an auth failure, 400
carries the upstream error detail, any other status is an upstream error,
and other transport errors are network errors. -/
def classifyOutcome : RawOutcome → Except GatewayError GatewayReply
  | RawOutcome.success c t => Except.ok ⟨c, t⟩
  | RawOutcome.timeout => Except.error GatewayError.timeout
  | RawOutcome.httpStatus code retryAfter detail =>
    if code == 429 then
      Except.error (GatewayError.rateLimited (retryAfter.getD "unknown".data))
    else if code == 401 then Except.error GatewayError.authFailed
    else if code == 400 then Except.error (GatewayError.badRequest detail)
    else Except.error (GatewayError.upstream code detail)
  | RawOutcome.networkError detail => Except.error (GatewayError.network detail)

/-- The tenacity retry loop around the attempt body (openrouter.py lines
104-109): stop after 3 attempts, retry only on httpx.TimeoutException,
re-raise the last error.  The oracle gives the raw outcome of each
attempt; the result is paired with the number of attempts actually made.
The backoff waits are timing behaviour and are not modelled. -/
def retryAttempt (oracle : Nat → RawOutcome) : Nat → Nat → Except GatewayError GatewayReply × Nat
  | i, 0 => (Except.error GatewayError.timeout, i)
  | i, Nat.succ left =>
    let r := classifyOutcome (oracle i)
    match r with
    | Except.error GatewayError.timeout =>
      if left == 0 then (r, i + 1) else retryAttempt oracle (i + 1) left
    | _ => (r, i + 1)

/-- OpenRouterAdapter.chat_completion via _chat_completion_with_retry with
a retry budget of 3 total attempts. -/
def chat_completion_with_retry (oracle : Nat → RawOutcome) :
    Except GatewayError GatewayReply × Nat :=
  retryAttempt oracle 0 3

-- ===========================================================================
-- services/message_handler.py : per-thread serialization
-- ===========================================================================

/-- The phases a message-processing task goes through with respect to its
thread lock (process_user_message, message_handler.py lines 103-106):
idle before starting, waiting on lock acquisition, inside the critical
section, done after release. -/
inductive Phase where
  | idle
  | waiting
  | inCS
  | done
deriving DecidableEq

/-- Initial state of a population of n tasks: nobody has started. -/
def initState (n : Nat) : Fin n → Phase := fun _ => Phase.idle

/-- Interleaving semantics of the per-thread lock registry.  Each of the
n tasks processes a message for the thread id given by tid (the registry
of _get_thread_lock keeps exactly one asyncio.Lock per thread id, its
creation serialized by _lock_lock).  A task may start waiting, may enter
the critical section when no task holding the same thread id is inside
(the acquire semantics of the per-thread asyncio.Lock, modelled from its
documented behaviour), and may leave the critical section. -/
inductive LockStep {α : Type} (n : Nat) (tid : Fin n → α) :
    (Fin n → Phase) → (Fin n → Phase) → Prop where
  | start (s : Fin n → Phase) (i : Fin n) :
      s i = Phase.idle →
      LockStep n tid s (Function.update s i Phase.waiting)
  | acquire (s : Fin n → Phase) (i : Fin n) :
      s i = Phase.waiting →
      (∀ j, tid j = tid i → s j ≠ Phase.inCS) →
      LockStep n tid s (Function.update s i Phase.inCS)
  | release (s : Fin n → Phase) (i : Fin n) :
      s i = Phase.inCS →
      LockStep n tid s (Function.update s i Phase.done)

/-- States reachable from the initial state by interleaved steps. -/
def Reachable {α : Type} (n : Nat) (tid : Fin n → α) (s : Fin n → Phase) : Prop :=
  Relation.ReflTransGen (LockStep n tid) (initState n) s

/-- Enabledness of the lock-acquire step of task i: it is waiting and no
task of the same thread id is inside the critical section.  The
condition mentions only tasks whose thread id equals tid i. -/
def acquireEnabled {α : Type} (n : Nat) (tid : Fin n → α) (s : Fin n → Phase) (i : Fin n) : Prop :=
  s i = Phase.waiting ∧ ∀ j, tid j = tid i → s j ≠ Phase.inCS

-- ===========================================================================
-- Theorems
-- ===========================================================================

/-- Message-list token count as cost sum plus the conversation overhead. -/
theorem count_messages_eq (ge : EncoderMap) (model : Text) (l : List Msg) :
    count_messages_tokens ge l model =
      msgCostSum ge model l + CONVERSATION_TOKEN_OVERHEAD := by
  unfold count_messages_tokens msgCostSum
  congr 1
  have h : ∀ (l : List Msg) (a : Nat),
      l.foldl (fun total msg =>
        total + count_tokens ge msg.content model + MESSAGE_TOKEN_OVERHEAD) a =
        a + (l.map (msgCost ge model)).sum := by
    intro l
    induction l with
    | nil => intro a; simp
    | cons x xs ih =>
      intro a
      simp only [List.foldl_cons, List.map_cons, List.sum_cons, ih, msgCost]
      omega
  rw [h l 0]
  omega

/-- Cost sums add over list append. -/
theorem msgCostSum_append (ge : EncoderMap) (model : Text) (l1 l2 : List Msg) :
    msgCostSum ge model (l1 ++ l2) = msgCostSum ge model l1 + msgCostSum ge model l2 := by
  simp [msgCostSum]

/-- Cost sums are invariant under reversal. -/
theorem msgCostSum_reverse (ge : EncoderMap) (model : Text) (l : List Msg) :
    msgCostSum ge model l.reverse = msgCostSum ge model l := by
  simp [msgCostSum, List.sum_reverse]

/-- Every message cost includes the per-message overhead. -/
theorem msgCost_pos (ge : EncoderMap) (model : Text) (m : Msg) :
    MESSAGE_TOKEN_OVERHEAD ≤ msgCost ge model m := by
  unfold msgCost
  omega

/-- A list with zero cost sum is empty. -/
theorem msgCostSum_eq_zero (ge : EncoderMap) (model : Text) (l : List Msg)
    (h : msgCostSum ge model l = 0) : l = [] := by
  cases l with
  | nil => rfl
  | cons m rest =>
    exfalso
    have h1 := msgCost_pos ge model m
    have h2 : msgCostSum ge model (m :: rest) =
        msgCost ge model m + msgCostSum ge model rest := by
      simp [msgCostSum]
    unfold MESSAGE_TOKEN_OVERHEAD at h1
    omega

/-- The admitted history never exceeds the remaining budget. -/
theorem trimHistoryRev_sum_le (ge : EncoderMap) (model : Text) (l : List Msg) :
    ∀ r : Nat, msgCostSum ge model (trimHistoryRev ge model r l) ≤ r := by
  induction l with
  | nil =>
    intro r
    simp [trimHistoryRev, msgCostSum]
  | cons m rest ih =>
    intro r
    simp only [trimHistoryRev]
    split
    case isTrue h =>
      rw [msgCostSum_append]
      have h2 : msgCostSum ge model [m] = msgCost ge model m := by simp [msgCostSum]
      have h3 := ih (r - msgCost ge model m)
      omega
    case isFalse h =>
      simp [msgCostSum]

/-- When the whole candidate list fits the budget, every message is
admitted. -/
theorem trimHistoryRev_all (ge : EncoderMap) (model : Text) (l : List Msg) :
    ∀ r : Nat, msgCostSum ge model l ≤ r → trimHistoryRev ge model r l = l.reverse := by
  induction l with
  | nil => intro r _; simp [trimHistoryRev]
  | cons m rest ih =>
    intro r h
    have hsum : msgCost ge model m + msgCostSum ge model rest = msgCostSum ge model (m :: rest) := by
      simp [msgCostSum]
    simp only [trimHistoryRev]
    rw [if_pos (by omega)]
    rw [ih (r - msgCost ge model m) (by omega)]
    simp

/-- Admitted messages come from the candidate list. -/
theorem trimHistoryRev_mem (ge : EncoderMap) (model : Text) (l : List Msg) :
    ∀ r x, x ∈ trimHistoryRev ge model r l → x ∈ l := by
  induction l with
  | nil => intro r x hx; simp [trimHistoryRev] at hx
  | cons m rest ih =>
    intro r x hx
    simp only [trimHistoryRev] at hx
    split at hx
    case isTrue h =>
      rw [List.mem_append] at hx
      rcases hx with hx | hx
      · exact List.mem_cons_of_mem m (ih _ x hx)
      · simp at hx
        simp [hx]
    case isFalse h => simp at hx

/-- The admitted history is a suffix of the chronological candidate list. -/
theorem trimHistoryRev_suffix (ge : EncoderMap) (model : Text) (l : List Msg) :
    ∀ r, List.IsSuffix (trimHistoryRev ge model r l) l.reverse := by
  induction l with
  | nil => intro r; simp [trimHistoryRev]
  | cons m rest ih =>
    intro r
    simp only [trimHistoryRev, List.reverse_cons]
    split
    case isTrue h =>
      obtain ⟨u, hu⟩ := ih (r - msgCost ge model m)
      exact ⟨u, by rw [← List.append_assoc, hu]⟩
    case isFalse h =>
      exact ⟨rest.reverse ++ [m], by simp⟩

/-- Greedy maximality: any fitting newest-first run is no longer than the
admitted one. -/
theorem trimHistoryRev_maximal (ge : EncoderMap) (model : Text) (P : List Msg) :
    ∀ (l : List Msg) (r : Nat), (∃ t, l = P ++ t) → msgCostSum ge model P ≤ r →
      P.length ≤ (trimHistoryRev ge model r l).length := by
  induction P with
  | nil => intro l r _ _; simp
  | cons p P' ih =>
    intro l r hpre hsum
    obtain ⟨t, ht⟩ := hpre
    subst ht
    have hsplit : msgCost ge model p + msgCostSum ge model P' = msgCostSum ge model (p :: P') := by
      simp [msgCostSum]
    simp only [List.cons_append, trimHistoryRev]
    rw [if_pos (by omega)]
    have hlen := ih (P' ++ t) (r - msgCost ge model p) ⟨t, rfl⟩ (by omega)
    simp only [List.length_append, List.length_cons]
    simp at hlen ⊢
    omega

/-- Unfolding of trim_context_to_fit into its three branches. -/
theorem trim_spec (ge : EncoderMap) (msgs : List Msg) (model : Text) (maxT : Nat)
    (ps psm : Bool) :
    trim_context_to_fit ge msgs model maxT ps psm =
      if msgs.isEmpty then msgs
      else if maxT ≤ count_messages_tokens ge (msgs.filter (isPreserved ps psm)) model then
        msgs.filter (isPreserved ps psm)
      else
        msgs.filter (isPreserved ps psm) ++
          trimHistoryRev ge model
            (maxT - count_messages_tokens ge (msgs.filter (isPreserved ps psm)) model)
            (msgs.filter (fun m => !isPreserved ps psm m)).reverse := rfl

/-- Filtering an already filtered list changes nothing. -/
theorem filter_filter_self {α : Type} (p : α → Bool) (l : List α) :
    (l.filter p).filter p = l.filter p :=
  List.filter_eq_self.mpr (fun _ ha => List.of_mem_filter ha)

/-- Filtering the complement out of a filtered list gives the empty list. -/
theorem filter_not_filter {α : Type} (p : α → Bool) (l : List α) :
    (l.filter p).filter (fun m => !p m) = [] := by
  rw [List.filter_eq_nil_iff]
  intro a ha
  have := List.of_mem_filter ha
  simp [this]

/-- Claim C2: whenever the preserved partition alone fits the budget, the
trimmed sequence estimate stays within the budget; and in every case the
trimmed sequence extends the preserved partition, in original relative
order, as a prefix. -/
theorem claim_C2_trim_budget (ge : EncoderMap) (msgs : List Msg) (model : Text)
    (maxT : Nat) :
    (count_messages_tokens ge (msgs.filter (isPreserved true true)) model ≤ maxT →
      count_messages_tokens ge (trim_context_to_fit ge msgs model maxT true true) model ≤ maxT) ∧
    (∃ t, trim_context_to_fit ge msgs model maxT true true =
      msgs.filter (isPreserved true true) ++ t) := by
  rw [trim_spec]
  by_cases hemp : msgs.isEmpty
  · rw [if_pos hemp]
    have hnil : msgs = [] := by
      cases msgs with
      | nil => rfl
      | cons a as => simp [List.isEmpty] at hemp
    subst hnil
    exact ⟨fun h => by simpa using h, ⟨[], by simp⟩⟩
  · rw [if_neg hemp]
    by_cases hfit : maxT ≤ count_messages_tokens ge (msgs.filter (isPreserved true true)) model
    · rw [if_pos hfit]
      exact ⟨fun h => h, ⟨[], by simp⟩⟩
    · rw [if_neg hfit]
      constructor
      · intro _
        have hle := trimHistoryRev_sum_le ge model
          (msgs.filter (fun m => !isPreserved true true m)).reverse
          (maxT - count_messages_tokens ge (msgs.filter (isPreserved true true)) model)
        have hc := count_messages_eq ge model (msgs.filter (isPreserved true true))
        rw [count_messages_eq, msgCostSum_append]
        omega
      · exact ⟨_, rfl⟩

/-- Witness for claim C2: a system message plus one user message under a
generous budget. -/
theorem claim_C2_witness :
    count_messages_tokens (fun _ => none)
      (([⟨"system".data, "sys".data⟩, ⟨"user".data, "hi".data⟩] : List Msg).filter
        (isPreserved true true)) "m".data ≤ 100 ∧
    count_messages_tokens (fun _ => none)
      (trim_context_to_fit (fun _ => none)
        [⟨"system".data, "sys".data⟩, ⟨"user".data, "hi".data⟩] "m".data 100 true true)
      "m".data ≤ 100 :=
  ⟨by decide,
    (claim_C2_trim_budget (fun _ => none)
      [⟨"system".data, "sys".data⟩, ⟨"user".data, "hi".data⟩] "m".data 100).1 (by decide)⟩

/-- Claim C6: trimming is idempotent for every encoder map, message list,
model, budget and preserve-flag setting. -/
theorem claim_C6_trim_idempotent (ge : EncoderMap) (msgs : List Msg) (model : Text)
    (maxT : Nat) (ps psm : Bool) :
    trim_context_to_fit ge (trim_context_to_fit ge msgs model maxT ps psm) model maxT ps psm =
      trim_context_to_fit ge msgs model maxT ps psm := by
  by_cases hemp : msgs.isEmpty
  · have hnil : msgs = [] := by
      cases msgs with
      | nil => rfl
      | cons a as => simp [List.isEmpty] at hemp
    subst hnil
    rfl
  · rw [trim_spec ge msgs, if_neg hemp]
    by_cases hfit : maxT ≤ count_messages_tokens ge (msgs.filter (isPreserved ps psm)) model
    · rw [if_pos hfit]
      by_cases hpemp : (msgs.filter (isPreserved ps psm)).isEmpty
      · have hnil2 : msgs.filter (isPreserved ps psm) = [] := by
          cases h2 : msgs.filter (isPreserved ps psm) with
          | nil => rfl
          | cons a as => rw [h2] at hpemp; simp [List.isEmpty] at hpemp
        rw [hnil2]
        rfl
      · rw [trim_spec, if_neg hpemp, filter_filter_self]
        rw [if_pos hfit]
    · rw [if_neg hfit]
      set preserved := msgs.filter (isPreserved ps psm) with hpres
      set r := maxT - count_messages_tokens ge preserved model with hr
      set adm := trimHistoryRev ge model r (msgs.filter (fun m => !isPreserved ps psm m)).reverse
        with hadm
      have hadm_mem : ∀ x ∈ adm, isPreserved ps psm x = false := by
        intro x hx
        have hx2 := trimHistoryRev_mem ge model _ r x hx
        rw [List.mem_reverse] at hx2
        have := List.of_mem_filter hx2
        simpa using this
      have hfilter_p : (preserved ++ adm).filter (isPreserved ps psm) = preserved := by
        rw [List.filter_append, filter_filter_self]
        have : adm.filter (isPreserved ps psm) = [] := by
          rw [List.filter_eq_nil_iff]
          intro a ha
          simp [hadm_mem a ha]
        rw [this, List.append_nil]
      by_cases hremp : (preserved ++ adm).isEmpty
      · have hnil2 : preserved ++ adm = [] := by
          cases h2 : preserved ++ adm with
          | nil => rfl
          | cons a as => rw [h2] at hremp; simp [List.isEmpty] at hremp
        rw [hnil2]
        rfl
      · rw [trim_spec, if_neg hremp, hfilter_p, if_neg hfit]
        congr 1
        have hfilter_np : (preserved ++ adm).filter (fun m => !isPreserved ps psm m) = adm := by
          rw [List.filter_append, filter_not_filter]
          have : adm.filter (fun m => !isPreserved ps psm m) = adm := by
            rw [List.filter_eq_self]
            intro a ha
            simp [hadm_mem a ha]
          rw [this, List.nil_append]
        rw [hfilter_np]
        have hsum : msgCostSum ge model adm.reverse ≤ r := by
          rw [msgCostSum_reverse]
          exact trimHistoryRev_sum_le ge model _ r
        rw [trimHistoryRev_all ge model adm.reverse r hsum, List.reverse_reverse]

/-- Claim C9: when no message is in the preserved partition, trimming
with the default flags returns a contiguous suffix of the input — the
longest trailing run whose estimate fits the budget (the empty suffix in
the degenerate branch where even the bare overhead exceeds the budget). -/
theorem claim_C9_trim_suffix (ge : EncoderMap) (msgs : List Msg) (model : Text)
    (maxT : Nat) (hnone : ∀ m ∈ msgs, isPreserved true true m = false) :
    List.IsSuffix (trim_context_to_fit ge msgs model maxT true true) msgs ∧
    (count_messages_tokens ge (trim_context_to_fit ge msgs model maxT true true) model ≤ maxT ∨
      trim_context_to_fit ge msgs model maxT true true = []) ∧
    (∀ s, List.IsSuffix s msgs → count_messages_tokens ge s model ≤ maxT →
      s.length ≤ (trim_context_to_fit ge msgs model maxT true true).length) := by
  have hfilp : msgs.filter (isPreserved true true) = [] := by
    rw [List.filter_eq_nil_iff]
    intro a ha
    simp [hnone a ha]
  have hfilnp : msgs.filter (fun m => !isPreserved true true m) = msgs := by
    rw [List.filter_eq_self]
    intro a ha
    simp [hnone a ha]
  by_cases hnil : msgs = []
  · subst hnil
    have htriv : trim_context_to_fit ge [] model maxT true true = [] := rfl
    rw [htriv]
    refine ⟨List.nil_suffix, Or.inr rfl, ?_⟩
    intro s hs _
    obtain ⟨u, hu⟩ := hs
    have : s = [] := (List.append_eq_nil.mp hu).2
    simp [this]
  · have hemp : ¬(msgs.isEmpty = true) := by
      cases msgs with
      | nil => exact absurd rfl hnil
      | cons a as => simp
    rw [trim_spec, if_neg hemp, hfilp, hfilnp]
    have hpt : count_messages_tokens ge [] model = CONVERSATION_TOKEN_OVERHEAD := by
      simp [count_messages_eq, msgCostSum]
    by_cases hfit : maxT ≤ count_messages_tokens ge ([] : List Msg) model
    · rw [if_pos hfit]
      refine ⟨List.nil_suffix, Or.inr rfl, ?_⟩
      intro s hs hcount
      rw [count_messages_eq] at hcount
      rw [hpt] at hfit
      have hzero : msgCostSum ge model s = 0 := by omega
      have := msgCostSum_eq_zero ge model s hzero
      simp [this]
    · rw [if_neg hfit, List.nil_append]
      rw [hpt] at hfit
      refine ⟨?_, ?_, ?_⟩
      · have := trimHistoryRev_suffix ge model msgs.reverse
          (maxT - count_messages_tokens ge ([] : List Msg) model)
        rw [List.reverse_reverse] at this
        exact this
      · left
        rw [count_messages_eq]
        have hle := trimHistoryRev_sum_le ge model msgs.reverse
          (maxT - count_messages_tokens ge ([] : List Msg) model)
        omega
      · intro s hs hcount
        obtain ⟨u, hu⟩ := hs
        have hrev : msgs.reverse = s.reverse ++ u.reverse := by
          rw [← hu]
          simp
        rw [count_messages_eq] at hcount
        have hsum : msgCostSum ge model s.reverse ≤
            maxT - count_messages_tokens ge ([] : List Msg) model := by
          rw [msgCostSum_reverse, hpt]
          omega
        have := trimHistoryRev_maximal ge model s.reverse msgs.reverse
          (maxT - count_messages_tokens ge ([] : List Msg) model)
          ⟨u.reverse, hrev⟩ hsum
        simpa using this

/-- Witness for claim C9: three plain user and assistant messages under a
budget that admits only the two most recent. -/
theorem claim_C9_witness :
    (∀ m ∈ ([⟨"user".data, (List.replicate 40 'a')⟩, ⟨"assistant".data, (List.replicate 40 'b')⟩,
        ⟨"user".data, "hi".data⟩] : List Msg), isPreserved true true m = false) ∧
    List.IsSuffix
      (trim_context_to_fit (fun _ => none)
        [⟨"user".data, (List.replicate 40 'a')⟩, ⟨"assistant".data, (List.replicate 40 'b')⟩,
         ⟨"user".data, "hi".data⟩] "m".data 25 true true)
      [⟨"user".data, (List.replicate 40 'a')⟩, ⟨"assistant".data, (List.replicate 40 'b')⟩,
       ⟨"user".data, "hi".data⟩] :=
  ⟨by decide,
    (claim_C9_trim_suffix (fun _ => none)
      [⟨"user".data, (List.replicate 40 'a')⟩, ⟨"assistant".data, (List.replicate 40 'b')⟩,
       ⟨"user".data, "hi".data⟩] "m".data 25 (by decide)).1⟩

/-- Claim C3, counterexample: for the one-character text a and a model
with no exact tokenizer, the source computes floor(1 / 4) = 0, while the
claimed ceil(1 / 4) is 1. -/
theorem claim_C3_counterexample :
    count_tokens (fun _ => none) "a".data "anthropic/claude-3.5-sonnet".data ≠
      ("a".data.length + CHARS_PER_TOKEN_ESTIMATE - 1) / CHARS_PER_TOKEN_ESTIMATE := by
  decide

/-- Claim C3, amended: for every text and every model with no exact
sub-word tokenizer, the estimate is the floor of len(text) / 4 (not the
ceiling), and for empty text the estimate is 0 for every model. -/
theorem claim_C3_amended (ge : EncoderMap) (text model : Text) :
    (ge model = none → count_tokens ge text model = text.length / CHARS_PER_TOKEN_ESTIMATE) ∧
    count_tokens ge [] model = 0 := by
  constructor
  · intro h
    simp [count_tokens, h]
  · unfold count_tokens
    cases h : ge model with
    | none => simp [CHARS_PER_TOKEN_ESTIMATE]
    | some enc => simp [enc.encode_nil]

/-- Witness for claim C3: the amended statement evaluated at the
five-character text abcde and a model without a tokenizer. -/
theorem claim_C3_amended_witness :
    count_tokens (fun _ => none) "abcde".data "m".data = 1 ∧
    count_tokens (fun _ => none) ([] : Text) "m".data = 0 := by
  refine ⟨?_, (claim_C3_amended (fun _ => none) "abcde".data "m".data).2⟩
  rw [(claim_C3_amended (fun _ => none) "abcde".data "m".data).1 rfl]
  decide

/-- Claim C5: for a thread whose id parses and whose stored message count
is c, should_trigger is true exactly when c is positive and an exact
multiple of the configured threshold. -/
theorem claim_C5_should_trigger (db : Nat → Option Nat) (thread_id : Text) (u c : Nat)
    (hparse : pyUUIDParse thread_id = some u) (hdb : db u = some c) :
    ∀ threshold : Nat,
      (should_trigger db threshold thread_id = true ↔ (0 < c ∧ c % threshold = 0)) := by
  intro threshold
  simp only [should_trigger, hparse, hdb]
  constructor
  · intro h
    simp only [Bool.and_eq_true, bne_iff_ne, ne_eq, decide_eq_true_eq, beq_iff_eq] at h
    exact ⟨h.1.2, h.2⟩
  · intro h
    simp only [Bool.and_eq_true, bne_iff_ne, ne_eq, decide_eq_true_eq, beq_iff_eq]
    exact ⟨⟨Nat.pos_iff_ne_zero.mp h.1, h.1⟩, h.2⟩

/-- Witness for claim C5: a thread id of 32 zeros with a stored count of
10 triggers at the default threshold 10. -/
theorem claim_C5_witness :
    should_trigger (fun _ => some 10) 10 "00000000000000000000000000000000".data = true :=
  (claim_C5_should_trigger (fun _ => some 10)
      "00000000000000000000000000000000".data 0 10 (by decide) rfl 10).mpr
    (by decide)

/-- Claim C7, counterexample: an explicitly requested empty-string model
is invalid in the registry, yet the call succeeds with the thread default
model (the Python truthiness guard treats the empty string like None),
contradicting the no-silent-fallback clause. -/
theorem claim_C7_counterexample :
    determine_effective_model "openai/gpt-4-turbo".data (some []) =
      Except.ok "openai/gpt-4-turbo".data ∧
    validate_model ([] : Text) = false := by
  constructor
  · rfl
  · rfl

/-- Claim C7, amended: for every request whose explicitly requested model
is a non-empty string, a registry-valid requested model overrides the
thread default, and an invalid one fails with the invalid-model error
instead of silently falling back; an empty-string request is treated as
no request. -/
theorem claim_C7_amended (thread_current_model rm : Text) (hne : rm ≠ []) :
    (validate_model rm = true →
      determine_effective_model thread_current_model (some rm) = Except.ok rm) ∧
    (validate_model rm = false →
      determine_effective_model thread_current_model (some rm) =
        Except.error (ModelError.invalidRequested rm)) := by
  constructor
  · intro hv
    simp [determine_effective_model, hne, hv]
  · intro hv
    simp [determine_effective_model, hne, hv]

/-- Witness for claim C7: a valid requested model overrides the thread
default, and an invalid non-empty one errors. -/
theorem claim_C7_amended_witness :
    determine_effective_model "openai/gpt-4-turbo".data
      (some "anthropic/claude-3.5-sonnet".data) =
      Except.ok "anthropic/claude-3.5-sonnet".data ∧
    determine_effective_model "openai/gpt-4-turbo".data (some "x".data) =
      Except.error (ModelError.invalidRequested "x".data) := by
  constructor
  · exact (claim_C7_amended "openai/gpt-4-turbo".data
      "anthropic/claude-3.5-sonnet".data (by decide)).1 (by decide)
  · exact (claim_C7_amended "openai/gpt-4-turbo".data "x".data (by decide)).2 (by decide)

/-- Claim C10: a thread-id string that is not a syntactically valid UUID
makes should_trigger return false and generate_summary return none, for
every storage state, adapter, and threshold; neither raises. -/
theorem claim_C10_malformed_id (db : Nat → Option Nat) (msgsDesc : Nat → List SMsg)
    (adapter : Text → Option Text) (threshold : Nat) (thread_id : Text)
    (hbad : pyUUIDParse thread_id = none) :
    should_trigger db threshold thread_id = false ∧
    generate_summary msgsDesc adapter threshold thread_id = none := by
  constructor
  · simp [should_trigger, hbad]
  · simp [generate_summary, hbad]

/-- Witness for claim C10: the malformed id not-a-uuid. -/
theorem claim_C10_witness :
    should_trigger (fun _ => some 10) 10 "not-a-uuid".data = false ∧
    generate_summary (fun _ => []) (fun _ => none) 10 "not-a-uuid".data = none :=
  claim_C10_malformed_id (fun _ => some 10) (fun _ => []) (fun _ => none) 10
    "not-a-uuid".data (by decide)

/-- Claim C1: with a simple query and no forcing, collaborate issues
exactly the planner and writer requests in that order and returns the
writer output verbatim; with forcing, it issues exactly the planner,
writer and reviewer requests, whose models are the planner, writer and
reviewer models in that order. -/
theorem claim_C1_collaborate (agents : AgentMap) (adapter : Adapter) (query : Text)
    (context : Option Text) :
    ((classify_complexity query context).is_complex = false →
      (collaborate agents adapter query context false).calls =
        [plannerCallOf agents query context, writerCallOf agents adapter query context] ∧
      (collaborate agents adapter query context false).final_response =
        draftOf agents adapter query context) ∧
    ((collaborate agents adapter query context true).calls =
        [plannerCallOf agents query context, writerCallOf agents adapter query context,
         reviewerCallOf agents adapter query context] ∧
      (collaborate agents adapter query context true).calls.map GatewayCall.model =
        [(agents AgentRole.planner).model, (agents AgentRole.writer).model,
         (agents AgentRole.reviewer).model]) := by
  constructor
  · intro h
    constructor
    · simp [collaborate, h]
    · simp [collaborate, h, draftOf]
  · constructor
    · simp [collaborate]
    · simp [collaborate, plannerCallOf, writerCallOf, reviewerCallOf]

/-- Witness for claim C1: the query What is AI? classifies as simple and
yields exactly two gateway calls. -/
theorem claim_C1_witness :
    (classify_complexity "What is AI?".data none).is_complex = false ∧
    (collaborate DEFAULT_AGENTS (fun c => ⟨c.model, 0⟩) "What is AI?".data none
      false).calls.length = 2 := by
  refine ⟨by decide, ?_⟩
  have h := (claim_C1_collaborate DEFAULT_AGENTS (fun c => ⟨c.model, 0⟩)
    "What is AI?".data none).1 (by decide)
  rw [h.1]
  rfl

/-- Only a raw timeout classifies to the timeout failure class. -/
theorem classifyOutcome_timeout_iff (o : RawOutcome) :
    classifyOutcome o = Except.error GatewayError.timeout ↔ o = RawOutcome.timeout := by
  cases o with
  | success c t => simp [classifyOutcome]
  | timeout => simp [classifyOutcome]
  | httpStatus code ra d =>
    simp only [classifyOutcome]
    split
    · simp
    · split
      · simp
      · split
        · simp
        · simp
  | networkError d => simp [classifyOutcome]

/-- A non-timeout outcome is returned by the retry loop without a further
attempt. -/
theorem retryAttempt_nontimeout (oracle : Nat → RawOutcome) (i left : Nat)
    (h : classifyOutcome (oracle i) ≠ Except.error GatewayError.timeout) :
    retryAttempt oracle i (Nat.succ left) = (classifyOutcome (oracle i), i + 1) := by
  simp only [retryAttempt]

/-- A timeout with retries left moves to the next attempt. -/
theorem retryAttempt_timeout_step (oracle : Nat → RawOutcome) (i l : Nat)
    (h : oracle i = RawOutcome.timeout) :
    retryAttempt oracle i (Nat.succ (Nat.succ l)) = retryAttempt oracle (i + 1) (Nat.succ l) := by
  simp [retryAttempt, h, classifyOutcome]

/-- A timeout on the final attempt is re-raised. -/
theorem retryAttempt_timeout_last (oracle : Nat → RawOutcome) (i : Nat)
    (h : oracle i = RawOutcome.timeout) :
    retryAttempt oracle i 1 = (Except.error GatewayError.timeout, i + 1) := by
  simp [retryAttempt, h, classifyOutcome]

/-- Claim C4: the retry loop makes at most 3 attempts; every attempt
before the last was a transport timeout (nothing else is ever retried);
persistent timeouts exhaust exactly 3 attempts and surface the timeout;
and any non-timeout first outcome — success, 429 with its retry-after
value, 401, 400 with its detail, another status, or a network error —
returns after exactly one attempt with its own classification. -/
theorem claim_C4_retry_policy (oracle : Nat → RawOutcome) :
    (chat_completion_with_retry oracle).2 ≤ 3 ∧
    (∀ k, k + 1 < (chat_completion_with_retry oracle).2 → oracle k = RawOutcome.timeout) ∧
    ((∀ k, k < 3 → oracle k = RawOutcome.timeout) →
      chat_completion_with_retry oracle = (Except.error GatewayError.timeout, 3)) ∧
    (∀ e, classifyOutcome (oracle 0) = Except.error e → e ≠ GatewayError.timeout →
      chat_completion_with_retry oracle = (Except.error e, 1)) ∧
    (∀ reply, classifyOutcome (oracle 0) = Except.ok reply →
      chat_completion_with_retry oracle = (Except.ok reply, 1)) ∧
    (∀ ra d, oracle 0 = RawOutcome.httpStatus 429 ra d →
      chat_completion_with_retry oracle =
        (Except.error (GatewayError.rateLimited (ra.getD "unknown".data)), 1)) ∧
    (∀ ra d, oracle 0 = RawOutcome.httpStatus 401 ra d →
      chat_completion_with_retry oracle = (Except.error GatewayError.authFailed, 1)) ∧
    (∀ ra d, oracle 0 = RawOutcome.httpStatus 400 ra d →
      chat_completion_with_retry oracle = (Except.error (GatewayError.badRequest d), 1)) ∧
    (∀ d, oracle 0 = RawOutcome.networkError d →
      chat_completion_with_retry oracle = (Except.error (GatewayError.network d), 1)) := by
  have hfirst : ∀ (h : classifyOutcome (oracle 0) ≠ Except.error GatewayError.timeout),
      chat_completion_with_retry oracle = (classifyOutcome (oracle 0), 1) := by
    intro h
    exact retryAttempt_nontimeout oracle 0 2 h
  have hmain :
      (chat_completion_with_retry oracle).2 ≤ 3 ∧
      (∀ k, k + 1 < (chat_completion_with_retry oracle).2 → oracle k = RawOutcome.timeout) := by
    by_cases h0 : oracle 0 = RawOutcome.timeout
    · by_cases h1 : oracle 1 = RawOutcome.timeout
      · have hstep : chat_completion_with_retry oracle = retryAttempt oracle 2 1 := by
          unfold chat_completion_with_retry
          rw [retryAttempt_timeout_step oracle 0 1 h0, retryAttempt_timeout_step oracle 1 0 h1]
        by_cases h2 : oracle 2 = RawOutcome.timeout
        · rw [hstep, retryAttempt_timeout_last oracle 2 h2]
          refine ⟨by omega, ?_⟩
          intro k hk
          have : k = 0 ∨ k = 1 := by omega
          rcases this with hk0 | hk1
          · rw [hk0]; exact h0
          · rw [hk1]; exact h1
        · rw [hstep, retryAttempt_nontimeout oracle 2 0
            (fun hc => h2 ((classifyOutcome_timeout_iff (oracle 2)).mp hc))]
          refine ⟨by omega, ?_⟩
          intro k hk
          have : k = 0 ∨ k = 1 := by omega
          rcases this with hk0 | hk1
          · rw [hk0]; exact h0
          · rw [hk1]; exact h1
      · have hstep : chat_completion_with_retry oracle = retryAttempt oracle 1 2 := by
          unfold chat_completion_with_retry
          rw [retryAttempt_timeout_step oracle 0 1 h0]
        rw [hstep, retryAttempt_nontimeout oracle 1 1
          (fun hc => h1 ((classifyOutcome_timeout_iff (oracle 1)).mp hc))]
        refine ⟨by omega, ?_⟩
        intro k hk
        have : k = 0 := by omega
        rw [this]; exact h0
    · rw [hfirst (fun hc => h0 ((classifyOutcome_timeout_iff (oracle 0)).mp hc))]
      exact ⟨by omega, by intro k hk; omega⟩
  refine ⟨hmain.1, hmain.2, ?_, ?_, ?_, ?_, ?_, ?_, ?_⟩
  · intro hall
    unfold chat_completion_with_retry
    rw [retryAttempt_timeout_step oracle 0 1 (hall 0 (by omega)),
        retryAttempt_timeout_step oracle 1 0 (hall 1 (by omega)),
        retryAttempt_timeout_last oracle 2 (hall 2 (by omega))]
  · intro e he hne
    rw [hfirst (by rw [he]; intro hc; exact hne (by injection hc)), he]
  · intro reply hr
    rw [hfirst (by rw [hr]; intro hc; exact Except.noConfusion hc), hr]
  · intro ra d h
    have hc : classifyOutcome (oracle 0) =
        Except.error (GatewayError.rateLimited (ra.getD "unknown".data)) := by
      rw [h]; simp [classifyOutcome]
    rw [hfirst (by rw [hc]; intro hx; injection hx with hx2; exact GatewayError.noConfusion hx2), hc]
  · intro ra d h
    have hc : classifyOutcome (oracle 0) = Except.error GatewayError.authFailed := by
      rw [h]; simp [classifyOutcome]
    rw [hfirst (by rw [hc]; intro hx; injection hx with hx2; exact GatewayError.noConfusion hx2), hc]
  · intro ra d h
    have hc : classifyOutcome (oracle 0) = Except.error (GatewayError.badRequest d) := by
      rw [h]; simp [classifyOutcome]
    rw [hfirst (by rw [hc]; intro hx; injection hx with hx2; exact GatewayError.noConfusion hx2), hc]
  · intro d h
    have hc : classifyOutcome (oracle 0) = Except.error (GatewayError.network d) := by
      rw [h]; simp [classifyOutcome]
    rw [hfirst (by rw [hc]; intro hx; injection hx with hx2; exact GatewayError.noConfusion hx2), hc]

/-- Witness for claim C4: persistent timeouts give exactly 3 attempts and
surface the timeout; a first-attempt 429 returns after one attempt with
the retry-after value. -/
theorem claim_C4_witness :
    chat_completion_with_retry (fun _ => RawOutcome.timeout) =
      (Except.error GatewayError.timeout, 3) ∧
    chat_completion_with_retry (fun _ => RawOutcome.httpStatus 429 (some "7".data) "d".data) =
      (Except.error (GatewayError.rateLimited "7".data), 1) :=
  ⟨(claim_C4_retry_policy (fun _ => RawOutcome.timeout)).2.2.1 (fun _ _ => rfl),
   (claim_C4_retry_policy (fun _ => RawOutcome.httpStatus 429 (some "7".data)
      "d".data)).2.2.2.2.2.1 (some "7".data) "d".data rfl⟩

/-- Mutual exclusion invariant of the per-thread lock model: in every
reachable state, two tasks inside the critical section for the same
thread id are the same task. -/
theorem lockModel_mutex {α : Type} (n : Nat) (tid : Fin n → α) :
    ∀ s, Reachable n tid s →
      ∀ i j, tid i = tid j → s i = Phase.inCS → s j = Phase.inCS → i = j := by
  intro s hreach
  unfold Reachable at hreach
  induction hreach with
  | refl =>
    intro i j _ hi _
    exact absurd hi (by simp [initState])
  | tail hpre step ih =>
    intro i j htid hi hj
    cases step with
    | start k hk =>
      rw [Function.update_apply] at hi hj
      split at hi
      · exact absurd hi (by simp)
      · split at hj
        · exact absurd hj (by simp)
        · exact ih i j htid hi hj
    | acquire k hk hguard =>
      rw [Function.update_apply] at hi hj
      split at hi
      case isTrue hik =>
        split at hj
        case isTrue hjk => rw [hik, hjk]
        case isFalse hjk =>
          exfalso
          exact hguard j (by rw [← htid, hik]) hj
      case isFalse hik =>
        split at hj
        case isTrue hjk =>
          exfalso
          exact hguard i (by rw [htid, hjk]) hi
        case isFalse hjk => exact ih i j htid hi hj
    | release k hk =>
      rw [Function.update_apply] at hi hj
      split at hi
      · exact absurd hi (by simp)
      · split at hj
        · exact absurd hj (by simp)
        · exact ih i j htid hi hj

/-- Claim C8: in every reachable interleaving of concurrent callers, at
most one holder per thread id is inside the message-processing critical
section; lock acquisition is enabled exactly by the same-thread-id
condition, so holders of other thread ids never block it. -/
theorem claim_C8_serialization {α : Type} (n : Nat) (tid : Fin n → α) :
    (∀ s, Reachable n tid s →
      ∀ i j, tid i = tid j → s i = Phase.inCS → s j = Phase.inCS → i = j) ∧
    (∀ s i, acquireEnabled n tid s i →
      LockStep n tid s (Function.update s i Phase.inCS)) ∧
    (∀ s s' i, (∀ j, tid j = tid i → s j = s' j) →
      (acquireEnabled n tid s i ↔ acquireEnabled n tid s' i)) := by
  refine ⟨lockModel_mutex n tid, ?_, ?_⟩
  · intro s i h
    exact LockStep.acquire s i h.1 h.2
  · intro s s' i hag
    have hii := hag i rfl
    constructor
    · rintro ⟨h1, h2⟩
      refine ⟨by rw [← hii]; exact h1, ?_⟩
      intro j hj
      rw [← hag j hj]
      exact h2 j hj
    · rintro ⟨h1, h2⟩
      refine ⟨by rw [hii]; exact h1, ?_⟩
      intro j hj
      rw [hag j hj]
      exact h2 j hj

/-- Witness for claim C8: a single waiting task with no holder of its
thread id may enter the critical section. -/
theorem claim_C8_witness :
    LockStep 1 (fun _ => (0 : Nat)) (fun _ => Phase.waiting)
      (Function.update (fun _ => Phase.waiting) 0 Phase.inCS) :=
  (claim_C8_serialization 1 (fun _ => (0 : Nat))).2.1 (fun _ => Phase.waiting) 0
    ⟨rfl, by decide⟩

end MultiAgent
